import Mathlib

/-!
Shallow embedding of the core request / pagination / reconciliation logic of
the `esp.bitbucket` Ansible collection, together with theorems checking the
repository specification's claims against it.

Sources embedded (all paths relative to the repository root):
  * `plugins/module_utils/bitbucket.py` — `BitbucketHelper.request` (retry
    loop), `get_all_projects_info`, `get_branches_info`,
    `get_branch_permissions_info` (pagination loops and status epilogues).
  * `plugins/modules/bitbucket_find.py` — `get_list_of_files` (per-iteration
    status dispatch pagination loop; no `AnsibleError` import) and
    `plugins/lookup/bitbucket_fileglob.py` — the lookup's file-listing loop
    (same shape, `AnsibleError` imported).
  * `plugins/modules/bitbucket_repo.py`, `bitbucket_branch.py`,
    `bitbucket_webhook.py`, `bitbucket_pull_request.py`,
    `bitbucket_branch_permissions.py` — the reconciliation decision logic of
    each module's `main` (check-mode handling, create/update/delete choice),
    with HTTP calls abstracted into emitted mutation labels.
-/

namespace EspBitbucket

/-! ## Retrying request executor: `BitbucketHelper.request`

`fetch_url` is modelled by a function `transport : Nat → Int` giving the
`info['status']` of the i-th attempt (1-based); `-1` is Ansible's marker for
a connection-level transport failure (in which case `fetch_url` still returns
a non-`None` `info` dict).  The Python loop is

    retries = 1
    while retries <= self.module.params['retries']:
        response, info = fetch_url(...)
        if (info is not None) and (info['status'] != -1):
            break
        time.sleep(self.module.params['sleep'])
        retries += 1

followed by `if response is not None: ...` — `response` is unbound when the
loop body never ran, i.e. when the `retries` parameter is `< 1`.
-/

/-- Trace of one `BitbucketHelper.request` call: how many `fetch_url`
attempts were made, how many `time.sleep(...)` calls happened, the status of
the last `info` received, and the final value of the `retries` counter
(returned as `content['fetch_url_retries']`). -/
structure RequestTrace where
  attempts : Nat
  sleeps : Nat
  lastStatus : Int
  retriesFinal : Nat
deriving DecidableEq, Repr

/-- The retry `while` loop of `BitbucketHelper.request`.  `remaining` is the
number of loop-condition successes still possible (`retries <= maxRetries`),
`retriesVar` the current value of the Python `retries` variable, `a`/`s` the
attempt/sleep counters and `last` the status of the last attempt so far. -/
def requestLoopGo (transport : Nat → Int) :
    (remaining retriesVar a s : Nat) → (last : Int) → RequestTrace
  | 0, retriesVar, a, s, last => ⟨a, s, last, retriesVar⟩
  | remaining + 1, retriesVar, a, s, _ =>
    let st := transport (a + 1)
    if st ≠ -1 then ⟨a + 1, s, st, retriesVar⟩
    else requestLoopGo transport remaining (retriesVar + 1) (a + 1) (s + 1) st

/-- Outcome of `BitbucketHelper.request`: either the `(info, content)`
envelope (abstracted to its trace), or the `UnboundLocalError` raised at
`if response is not None:` when the loop body never executed. -/
inductive RequestOutcome
  | envelope (t : RequestTrace)
  | unboundLocal (attempts sleeps : Nat)
deriving DecidableEq, Repr

/-- `BitbucketHelper.request` (`plugins/module_utils/bitbucket.py`, lines
107–140), restricted to its retry/termination behaviour.  `maxRetries` is the
`retries` module parameter (an arbitrary integer). -/
def request (maxRetries : Int) (transport : Nat → Int) : RequestOutcome :=
  let t := requestLoopGo transport maxRetries.toNat 1 0 0 0
  if t.attempts = 0 then .unboundLocal t.attempts t.sleeps
  else .envelope t

/-! ## Paginated listing loops

A server is a function from the requested `start` cursor to the
`(info, content)` pair of that request.  The parsed JSON body is modelled by
which of the keys `values` / `isLastPage` / `nextPageStart` are present. -/

/-- Parsed page body: `values`, `isLastPage`, `nextPageStart`, each `none`
when the key is absent from the response JSON. -/
structure PageContent (α : Type) where
  values : Option (List α)
  isLastPage : Option Bool
  nextPageStart : Option Nat
deriving DecidableEq, Repr

/-- One page response: the `info['status']` and the parsed body. -/
structure PageResp (α : Type) where
  status : Int
  content : PageContent α
deriving DecidableEq, Repr

/-- How a pagination loop ended: normally (with the last `info['status']`),
with a Python `KeyError` at `content['values']`, or still running when the
request budget (`fuel`) ran out. -/
inductive PagOutcome
  | ok (lastStatus : Int)
  | keyError
  | fuelOut
deriving DecidableEq, Repr

/-- Trace of a pagination run: accumulated items, the sequence of `start`
cursors actually requested (in order), and how the loop ended. -/
structure PagTrace (α : Type) where
  items : List α
  cursors : List Nat
  outcome : PagOutcome
deriving DecidableEq, Repr

/-- The pagination `while` loop shared verbatim by `get_all_projects_info`,
`get_branches_info`, `get_project_permissions_info`,
`get_repository_permissions_info`, `get_webhooks_info` and
`get_pull_request_info` in `plugins/module_utils/bitbucket.py`: the URL is
re-formatted on every iteration with the current `nextPageStart`, then

    projects.extend(content['values'])
    if 'isLastPage' in content:
        isLastPage = content['isLastPage']
        if 'nextPageStart' in content:
            nextPageStart = content['nextPageStart']
    else:
        isLastPage = True

`fuel` bounds the number of requests; `.fuelOut` means the loop was still
running after `fuel` requests. -/
def paginate (server : Nat → PageResp α) :
    (fuel cursor : Nat) → (items : List α) → (cursors : List Nat) → PagTrace α
  | 0, _, items, cursors => ⟨items, cursors, .fuelOut⟩
  | fuel + 1, c, items, cursors =>
    let resp := server c
    match resp.content.values with
    | none => ⟨items, cursors ++ [c], .keyError⟩
    | some vs =>
      match resp.content.isLastPage with
      | none => ⟨items ++ vs, cursors ++ [c], .ok resp.status⟩
      | some b =>
        let c' := match resp.content.nextPageStart with
          | some n => n
          | none => c
        if b then ⟨items ++ vs, cursors ++ [c], .ok resp.status⟩
        else paginate server fuel c' (items ++ vs) (cursors ++ [c])

/-- The pagination loop of `get_branch_permissions_info`
(`plugins/module_utils/bitbucket.py`, lines 533–573): identical body, except
that the request URL is formatted *once before* the loop with
`nextPageStart = 0` and never recomputed, so every request is issued with
`start=0`; the `nextPageStart` variable (`npv`) is still updated but unused. -/
def paginateFixedStart (server : Nat → PageResp α) :
    (fuel npv : Nat) → (items : List α) → (cursors : List Nat) → PagTrace α
  | 0, _, items, cursors => ⟨items, cursors, .fuelOut⟩
  | fuel + 1, npv, items, cursors =>
    let resp := server 0
    match resp.content.values with
    | none => ⟨items, cursors ++ [0], .keyError⟩
    | some vs =>
      match resp.content.isLastPage with
      | none => ⟨items ++ vs, cursors ++ [0], .ok resp.status⟩
      | some b =>
        let npv' := match resp.content.nextPageStart with
          | some n => n
          | none => npv
        if b then ⟨items ++ vs, cursors ++ [0], .ok resp.status⟩
        else paginateFixedStart server fuel npv' (items ++ vs) (cursors ++ [0])

/-- Outcome of a listing helper: the returned item list, the `None` sentinel
(`fail_when_not_exists=False` on a 404), one of the distinct `fail_json` /
`AnsibleError` branches keyed by status, an uncaught Python `KeyError`, an
uncaught Python `NameError` (a `raise` statement referencing a name that was
never imported), or a loop that was still running when the request budget
ran out. -/
inductive ListHelperOutcome (α : Type)
  | items (l : List α)
  | noneResult
  | fail400
  | fail401
  | fail404
  | failGeneric
  | pyKeyError
  | pyNameError
  | loopNotTerminating
deriving DecidableEq, Repr

/-- `BitbucketHelper.get_all_projects_info` (lines 205–242): pagination loop,
then `200 → return`, `400 → fail_json(permission level unknown)`,
`!= 200 → fail_json(generic)`.  There is no dedicated 404 branch. -/
def get_all_projects_info (server : Nat → PageResp α) (fuel : Nat) :
    ListHelperOutcome α :=
  match paginate server fuel 0 [] [] with
  | ⟨_, _, .fuelOut⟩ => .loopNotTerminating
  | ⟨_, _, .keyError⟩ => .pyKeyError
  | ⟨projects, _, .ok status⟩ =>
    if status = 200 then .items projects
    else if status = 400 then .fail400
    else .failGeneric

/-- `BitbucketHelper.get_branches_info` (lines 336–399): pagination loop,
then `200 → return`, `401 → fail_json(insufficient permissions)`,
`404 → fail_json / None` depending on `fail_when_not_exists`,
`!= 200 → fail_json(generic)`.  There is no dedicated 400 branch. -/
def get_branches_info (server : Nat → PageResp α) (fuel : Nat)
    (failWhenNotExists : Bool) : ListHelperOutcome α :=
  match paginate server fuel 0 [] [] with
  | ⟨_, _, .fuelOut⟩ => .loopNotTerminating
  | ⟨_, _, .keyError⟩ => .pyKeyError
  | ⟨branches, _, .ok status⟩ =>
    if status = 200 then .items branches
    else if status = 401 then .fail401
    else if status = 404 then (if failWhenNotExists then .fail404 else .noneResult)
    else .failGeneric

/-- `BitbucketHelper.get_branch_permissions_info` (lines 533–590): the
fixed-URL pagination loop, then `200 → return`, `404 → fail_json / None`,
`!= 200 → fail_json(generic)`. -/
def get_branch_permissions_info (server : Nat → PageResp α) (fuel : Nat)
    (failWhenNotExists : Bool) : ListHelperOutcome α :=
  match paginateFixedStart server fuel 0 [] [] with
  | ⟨_, _, .fuelOut⟩ => .loopNotTerminating
  | ⟨_, _, .keyError⟩ => .pyKeyError
  | ⟨restrictions, _, .ok status⟩ =>
    if status = 200 then .items restrictions
    else if status = 404 then (if failWhenNotExists then .fail404 else .noneResult)
    else .failGeneric

/-- `get_list_of_files` in `plugins/modules/bitbucket_find.py` (lines
238–286): the status is dispatched *inside* every iteration — `200 →
extend`, then `400`, `404` and any other non-200 each reach a `raise
AnsibleError(...)` statement — before the `isLastPage` handling.  But
`bitbucket_find.py` never imports `AnsibleError` (its imports are `re`,
`AnsibleModule`, `BitbucketHelper`, `string_types`), so evaluating
`AnsibleError(...)` in any of the three branches crashes with the identical
`NameError: name 'AnsibleError' is not defined` before the distinct message
is ever constructed: all three non-200 paths collapse into the same
`.pyNameError` outcome. -/
def get_list_of_files (server : Nat → PageResp α) :
    (fuel cursor : Nat) → (acc : List α) → ListHelperOutcome α
  | 0, _, _ => .loopNotTerminating
  | fuel + 1, c, acc =>
    let resp := server c
    if resp.status = 200 then
      match resp.content.values with
      | none => .pyKeyError
      | some vs =>
        let acc := acc ++ vs
        match resp.content.isLastPage with
        | none => .items acc
        | some b =>
          let c' := match resp.content.nextPageStart with
            | some n => n
            | none => c
          if b then .items acc
          else get_list_of_files server fuel c' acc
    else if resp.status = 400 then .pyNameError
    else if resp.status = 404 then .pyNameError
    else .pyNameError

/-- The file-listing loop of the `bitbucket_fileglob` lookup
(`plugins/lookup/bitbucket_fileglob.py`, lines 179–214): the same loop body,
but the lookup *does* import `AnsibleError` (line 147), so its three status
branches raise three distinct errors — `400` → "The path requested is not a
directory at the supplied commit.", `404` → "The specified repository does
not exist.", any other non-200 → the generic listing failure.  The
surrounding `except Exception` handler (line 216) re-wraps each in an
`AnsibleError` whose message embeds the distinct inner message, so the
three outcomes stay distinct; a `KeyError` at `content['values']` is
wrapped the same way (`.pyKeyError`). -/
def fileglob_list_files (server : Nat → PageResp α) :
    (fuel cursor : Nat) → (acc : List α) → ListHelperOutcome α
  | 0, _, _ => .loopNotTerminating
  | fuel + 1, c, acc =>
    let resp := server c
    if resp.status = 200 then
      match resp.content.values with
      | none => .pyKeyError
      | some vs =>
        let acc := acc ++ vs
        match resp.content.isLastPage with
        | none => .items acc
        | some b =>
          let c' := match resp.content.nextPageStart with
            | some n => n
            | none => c
          if b then .items acc
          else fileglob_list_files server fuel c' acc
    else if resp.status = 400 then .fail400
    else if resp.status = 404 then .fail404
    else .failGeneric

/-! ## Reconciliation decision logic of the module `main` functions

Each module's `main` is embedded as a pure function from the check-mode flag,
the `state` parameter and the current-state listing (already fetched by the
caller) to `(changed, mutations)` where `mutations` records, in order, the
mutating HTTP requests the run issues. -/

/-- The `state` module parameter: `present` or `absent`. -/
inductive PState
  | present
  | absent
deriving DecidableEq, Repr

/-- Result of one module run: the reported `changed` flag and the list of
mutating requests issued. -/
structure ModuleResult (μ : Type) where
  changed : Bool
  mutations : List μ
deriving DecidableEq, Repr

/-- Mutating requests of `bitbucket_repo`. -/
inductive RepoMutation
  | createRepo
  | deleteRepo
deriving DecidableEq, Repr

/-- The reconciliation logic of `main` in `plugins/modules/bitbucket_repo.py`
(lines 362–381):

    if not existing_repository and (state == 'present'):
        if not module.check_mode:
            content = create_repository(module, bitbucket)
        changed = True
    elif existing_repository and (state == 'absent'):
        if not module.check_mode:
            content = delete_repository(module, bitbucket)
        changed = True

`existingRepository` is the result of `get_repository_info` (`none` = the
repository does not exist). -/
def bitbucket_repo_main (checkMode : Bool) (state : PState)
    (existingRepository : Option α) : ModuleResult RepoMutation :=
  if existingRepository.isNone ∧ state = .present then
    { changed := true, mutations := if checkMode then [] else [.createRepo] }
  else if existingRepository.isSome ∧ state = .absent then
    { changed := true, mutations := if checkMode then [] else [.deleteRepo] }
  else { changed := false, mutations := [] }

/-- One branch of the `get_branches_info` listing, as inspected by
`bitbucket_branch.py`'s `main`: its `displayId` and `isDefault` fields. -/
structure BranchItem where
  displayId : String
  isDefault : Bool
deriving DecidableEq, Repr

/-- Mutating requests of `bitbucket_branch`. -/
inductive BranchMutation
  | createBranch
  | setDefaultBranch
deriving DecidableEq, Repr

/-- The reconciliation logic of `main` in
`plugins/modules/bitbucket_branch.py` (lines 344–359); the module only
supports `state=present`.  Two *independent* `if` blocks run in order: create
the branch when no existing branch has the requested `displayId` (calling
`set_default_branch` after creation when `is_default`), then promote an
existing non-default branch of that name when `is_default`. -/
def bitbucket_branch_main (checkMode : Bool) (existingBranches : List BranchItem)
    (branch : String) (isDefault : Bool) : ModuleResult BranchMutation :=
  let createNeeded := !(existingBranches.any (fun d => d.displayId == branch))
  let r1 : ModuleResult BranchMutation :=
    if createNeeded then
      { changed := true,
        mutations :=
          if checkMode then []
          else [BranchMutation.createBranch] ++
            (if isDefault then [BranchMutation.setDefaultBranch] else []) }
    else { changed := false, mutations := [] }
  let updNeeded :=
    (existingBranches.any (fun d => d.displayId == branch && !d.isDefault)) && isDefault
  if updNeeded then
    { changed := true,
      mutations := r1.mutations ++ (if checkMode then [] else [BranchMutation.setDefaultBranch]) }
  else r1

/-- One webhook of the `get_webhooks_info` listing, as inspected by
`bitbucket_webhook.py`'s `main`: only its `name` field is consulted. -/
structure Webhook where
  name : String
deriving DecidableEq, Repr

/-- Mutating requests of `bitbucket_webhook`. -/
inductive WebhookMutation
  | createWebhook
deriving DecidableEq, Repr

/-- The reconciliation logic of `main` in
`plugins/modules/bitbucket_webhook.py` (lines 219–226): a single `if` that
creates the webhook when `state == 'present'` and no existing webhook has the
requested name.  The module has no delete branch at all. -/
def bitbucket_webhook_main (checkMode : Bool) (state : PState)
    (existingWebhooks : List Webhook) (webhookName : String) :
    ModuleResult WebhookMutation :=
  if state = .present ∧ !(existingWebhooks.any (fun d => d.name == webhookName)) then
    { changed := true, mutations := if checkMode then [] else [.createWebhook] }
  else { changed := false, mutations := [] }

/-- One pull request of the `get_pull_request_info` listing, as inspected by
`bitbucket_pull_request.py`'s `main`: the `fromRef`/`toRef` display ids and
the `id`/`version` passed to the delete request. -/
structure Pull where
  fromRef : String
  toRef : String
  id : Nat
  version : Nat
deriving DecidableEq, Repr

/-- Mutating requests of `bitbucket_pull_request`. -/
inductive PullMutation
  | createPull
  | deletePull (id : Nat) (version : Nat)
deriving DecidableEq, Repr

/-- One iteration of the delete loop of `bitbucket_pull_request.py`'s `main`
(lines 324–329): every existing pull whose `toRef` and `fromRef` both match
is deleted (unless in check mode) and sets `result['changed'] = True`. -/
def prDeleteAccum (checkMode : Bool) (fromBranch toBranch : String)
    (acc : ModuleResult PullMutation) (d : Pull) : ModuleResult PullMutation :=
  if d.toRef == toBranch && d.fromRef == fromBranch then
    { changed := true,
      mutations := acc.mutations ++
        (if checkMode then [] else [.deletePull d.id d.version]) }
  else acc

/-- The reconciliation logic of `main` in
`plugins/modules/bitbucket_pull_request.py` (lines 313–331): create when
`state == 'present'` and no existing pull has the requested `fromRef` or
none has the requested `toRef`; otherwise, when the listing is non-empty and
`state == 'absent'`, run the delete loop over all existing pulls. -/
def bitbucket_pull_request_main (checkMode : Bool) (state : PState)
    (existingPulls : List Pull) (fromBranch toBranch : String) :
    ModuleResult PullMutation :=
  if state = .present ∧
      (!(existingPulls.any (fun d => d.fromRef == fromBranch)) ∨
       !(existingPulls.any (fun d => d.toRef == toBranch))) then
    { changed := true, mutations := if checkMode then [] else [.createPull] }
  else if ¬ existingPulls.isEmpty ∧ state = .absent then
    existingPulls.foldl (prDeleteAccum checkMode fromBranch toBranch)
      { changed := false, mutations := [] }
  else { changed := false, mutations := [] }

/-- Python `str.capitalize()`: first character uppercased, the rest
lowercased. -/
def pyCapitalize (s : String) : String :=
  match s.data with
  | [] => ""
  | c :: cs => String.mk (c.toUpper :: cs.map Char.toLower)

/-- The matcher dict built by `get_matcher` in
`plugins/modules/bitbucket_branch_permissions.py`: the `active`, `displayId`
and `id` fields plus the nested `type.id` / `type.name`. -/
structure BPMatcher where
  active : Bool
  displayId : String
  id : String
  typeId : String
  typeName : String
deriving DecidableEq, Repr

/-- `get_matcher` (`plugins/modules/bitbucket_branch_permissions.py`, lines
402–452).  `none` models the initial empty dict `matcher = {}` returned when
no `matcher_type` case applies.  The `branching_model` case embeds the
Python guard `if (matcher_name == 'development' or 'production'):` with its
actual truthiness semantics: the expression is truthy when
`matcher_name == 'development'` holds *or the string `'production'` is
non-empty*. -/
def get_matcher (matcherType matcherName : String) : Option BPMatcher :=
  let matcher : Option BPMatcher := none
  let matcher := if matcherType = "branch_name" then
      some ⟨true, matcherName, "refs/heads/" ++ matcherName, "BRANCH", "Branch"⟩
    else matcher
  let matcher := if matcherType = "branch_pattern" then
      some ⟨true, matcherName, matcherName, "PATTERN", "Pattern"⟩
    else matcher
  let matcher := if matcherType = "branching_model" then
      (if matcherName = "development" ∨ "production" ≠ "" then
        some ⟨true, pyCapitalize matcherName, matcherName,
              "MODEL_BRANCH", "Branching model branch"⟩
      else
        some ⟨true, pyCapitalize matcherName, matcherName.toUpper,
              "MODEL_CATEGORY", "Branching model category"⟩)
    else matcher
  matcher

/-- `get_restriction_type` (`plugins/modules/bitbucket_branch_permissions.py`,
lines 389–399). -/
def get_restriction_type (prevent : String) : String :=
  if prevent = "deletion" then "no-deletes"
  else if prevent = "rewriting history" then "fast-forward-only"
  else if prevent = "changes without a pull request" then "pull-request-only"
  else if prevent = "all changes" then "read-only"
  else "unknown-restriction"

/-- One existing branch restriction from `get_branch_permissions_info`, with
the fields inspected by the match in `bitbucket_branch_permissions.py`'s
`main`: `matcher` (`none` models a missing key, the `{}` default), `type`,
the group names, the `name` fields of the `users` entries, the access keys,
`scope.type`, and the `id` used by the delete request. -/
structure ExistingRestriction where
  matcher : Option BPMatcher
  rtype : String
  groups : List String
  userNames : List String
  accessKeys : List String
  scopeType : String
  id : Nat
deriving DecidableEq, Repr

/-- One entry of the `restrictions` module parameter. -/
structure DesiredRestriction where
  prevent : String
  exGroups : List String
  exUsers : List String
  exAccessKeys : List String
deriving DecidableEq, Repr

/-- The `found` filter of `bitbucket_branch_permissions.py`'s `main` (lines
555–561): an existing restriction matches when its matcher dict equals the
desired one, its type equals the restriction type derived from `prevent`,
its lowercased group list equals the lowercased desired groups, its user
*names* equal the *uppercased* desired users, its access keys equal the
desired ones, and its scope type equals the module's scope. -/
def bpFound (existing : List ExistingRestriction) (matcher : Option BPMatcher)
    (scopeType : String) (r : DesiredRestriction) : List ExistingRestriction :=
  existing.filter fun p =>
    p.matcher == matcher &&
    p.rtype == get_restriction_type r.prevent &&
    p.groups.map String.toLower == r.exGroups.map String.toLower &&
    p.userNames == r.exUsers.map String.toUpper &&
    p.accessKeys == r.exAccessKeys &&
    p.scopeType == scopeType

/-- Mutating requests of `bitbucket_branch_permissions`. -/
inductive BPMutation
  | createRestriction (r : DesiredRestriction)
  | deleteRestriction (id : Nat)
deriving DecidableEq, Repr

/-- One iteration of the `for restriction in restrictions:` loop of
`bitbucket_branch_permissions.py`'s `main` (lines 563–579): create when no
match exists and `state == 'present'`; delete — only `found[0]` — when a
match exists and `state == 'absent'`. -/
def bpRestrictionStep (checkMode : Bool) (state : PState)
    (existing : List ExistingRestriction) (matcher : Option BPMatcher)
    (scopeType : String) (r : DesiredRestriction) : ModuleResult BPMutation :=
  match bpFound existing matcher scopeType r with
  | [] =>
    if state = .present then
      { changed := true, mutations := if checkMode then [] else [.createRestriction r] }
    else { changed := false, mutations := [] }
  | f :: _ =>
    if state = .absent then
      { changed := true, mutations := if checkMode then [] else [.deleteRestriction f.id] }
    else { changed := false, mutations := [] }

/-- Accumulation of one `bpRestrictionStep` into the module result
(`result['changed']` is only ever set to `True`, so it accumulates with
`or`; the issued mutations accumulate in order). -/
def bpAccum (checkMode : Bool) (state : PState)
    (existing : List ExistingRestriction) (matcher : Option BPMatcher)
    (scopeType : String) (acc : ModuleResult BPMutation)
    (r : DesiredRestriction) : ModuleResult BPMutation :=
  let step := bpRestrictionStep checkMode state existing matcher scopeType r
  { changed := acc.changed || step.changed,
    mutations := acc.mutations ++ step.mutations }

/-- The reconciliation logic of `main` in
`plugins/modules/bitbucket_branch_permissions.py` (lines 544–582): iterate
over the supplied restrictions, accumulating `result['changed']` and the
issued mutations. -/
def bitbucket_branch_permissions_main (checkMode : Bool) (state : PState)
    (existing : List ExistingRestriction) (matcher : Option BPMatcher)
    (scopeType : String) (restrictions : List DesiredRestriction) :
    ModuleResult BPMutation :=
  restrictions.foldl (bpAccum checkMode state existing matcher scopeType)
    { changed := false, mutations := [] }

/-! ## Server application, for the run-twice (idempotence) analysis -/

/-- The remote server applying the mutations of one `bitbucket_repo` run:
a create makes the repository exist (`newRepo`), a delete removes it. -/
def applyRepoServer (newRepo : α) (state : PState) (existing : Option α) :
    Option α :=
  (bitbucket_repo_main false state existing).mutations.foldl
    (fun _st mu =>
      match mu with
      | RepoMutation.createRepo => some newRepo
      | RepoMutation.deleteRepo => none)
    existing

/-- Whether the current state already satisfies the desired `state` for
`bitbucket_repo`: `present` wants the repository to exist, `absent` wants it
gone. -/
def repoDesireSatisfied (state : PState) (existing : Option α) : Bool :=
  match state with
  | .present => existing.isSome
  | .absent => existing.isNone

/-- The remote server applying the mutations of one `bitbucket_branch` run:
a create appends a non-default branch with the requested name, a
set-default makes every branch of that name the default and unsets the
rest. -/
def applyBranchServer (existingBranches : List BranchItem) (branch : String)
    (isDefault : Bool) : List BranchItem :=
  (bitbucket_branch_main false existingBranches branch isDefault).mutations.foldl
    (fun st mu =>
      match mu with
      | BranchMutation.createBranch => st ++ [⟨branch, false⟩]
      | BranchMutation.setDefaultBranch =>
        st.map (fun d => if d.displayId == branch then ⟨d.displayId, true⟩
                         else ⟨d.displayId, false⟩))
    existingBranches

/-! ## Concrete servers used by counterexamples and witnesses -/

/-- A well-behaved two-page collection: the page at cursor 0 is not last and
points at cursor 1; every other cursor returns a last page. -/
def twoPageServer : Nat → PageResp Nat := fun c =>
  if c = 0 then ⟨200, ⟨some [1], some false, some 1⟩⟩
  else ⟨200, ⟨some [2], some true, none⟩⟩

/-- A server whose page at cursor `c` always points at cursor `c + 1`
(never last): its `nextPageStart` strictly increases, as the real server's
does. -/
def strictlyPagedServer : Nat → PageResp Nat := fun c =>
  ⟨200, ⟨some [c], some false, some (c + 1)⟩⟩

/-- A server that always answers `isLastPage=false` with no `nextPageStart`
key (the malformed/older-server shape of the spec's defensive-default
sentence). -/
def noNextPageServer : Nat → PageResp Nat := fun _ =>
  ⟨200, ⟨some [], some false, none⟩⟩

/-- A server whose single page omits the `isLastPage` key entirely. -/
def lastPageMissingServer : Nat → PageResp Nat := fun _ =>
  ⟨200, ⟨some [7], none, none⟩⟩

/-- A server answering a given status with a normal `values`-bearing,
last-page body (used to probe the status epilogues). -/
def onePageServer (status : Int) (vs : List Nat) : Nat → PageResp Nat :=
  fun _ => ⟨status, ⟨some vs, some true, none⟩⟩

/-- A server answering 404 with an error body that has no `values` key. -/
def errorBodyServer : Nat → PageResp Nat := fun _ =>
  ⟨404, ⟨none, none, none⟩⟩

/-! ## Theorems -/

/-- Helper: when every attempt is a transport failure, the retry loop runs
its full budget, sleeping once per iteration (including the last), and ends
with the `retries` counter one past the budget. -/
theorem requestLoopGo_allFail (transport : Nat → Int)
    (hall : ∀ i, transport i = -1) :
    ∀ (r retriesVar a s : Nat) (last : Int), 1 ≤ r →
      requestLoopGo transport r retriesVar a s last =
        ⟨a + r, s + r, -1, retriesVar + r⟩ := by
  intro r
  induction r with
  | zero => intro rv a s last h; exact absurd h (by omega)
  | succ n ih =>
    intro rv a s last _
    rw [requestLoopGo]
    simp only [hall (a + 1), ne_eq, not_true_eq_false, if_false, neg_neg]
    cases n with
    | zero => rw [requestLoopGo]
    | succ m =>
      rw [ih (rv + 1) (a + 1) (s + 1) (-1) (by omega)]
      congr 1 <;> omega

/-- C9: if the `retries` module parameter is zero or negative,
`BitbucketHelper.request` makes no `fetch_url` call at all (the
`unboundLocal 0 0` outcome records zero attempts and zero sleeps) and raises
`UnboundLocalError` at `if response is not None:` instead of returning a
response envelope, for every transport behaviour. -/
theorem claim_C9_nonpositive_retries_unbound :
    ∀ (maxRetries : Int) (transport : Nat → Int), maxRetries ≤ 0 →
      request maxRetries transport = RequestOutcome.unboundLocal 0 0 := by
  intro maxRetries transport h
  unfold request
  rw [Int.toNat_of_nonpos h]
  rfl

/-- Witness for C9 at `retries = 0` and a transport that would answer 200. -/
theorem claim_C9_witness :
    request 0 (fun _ => 200) = RequestOutcome.unboundLocal 0 0 :=
  claim_C9_nonpositive_retries_unbound 0 (fun _ => 200) (by decide)

/-- C3 (counterexample): with `retries = 2` and a transport that always
fails at the connection level, the code sleeps 2 times — once after *every*
failed attempt, including the last — whereas the claim's "sleeping between
each attempt and not after the last" demands only 1 sleep. -/
theorem claim_C3_counterexample :
    request 2 (fun _ => -1) = RequestOutcome.envelope ⟨2, 2, -1, 3⟩ ∧
      (2 : Nat) ≠ 2 - 1 := by
  constructor
  · rfl
  · decide

/-- C3 (amended): when every attempt signals a connection-level failure
(status −1) and `retries ≥ 1`, `BitbucketHelper.request` makes exactly
`retries` attempts, sleeps once after **every** failed attempt — `retries`
sleeps in total, including one after the last attempt — and then returns the
last transport-error envelope (status −1, with
`content['fetch_url_retries'] = retries + 1`) to the caller. -/
theorem claim_C3_retry_bound (maxRetries : Int) (transport : Nat → Int)
    (hpos : 1 ≤ maxRetries) (hall : ∀ i, transport i = -1) :
    request maxRetries transport =
      RequestOutcome.envelope
        ⟨maxRetries.toNat, maxRetries.toNat, -1, maxRetries.toNat + 1⟩ := by
  unfold request
  rw [requestLoopGo_allFail transport hall maxRetries.toNat 1 0 0 0 (by omega)]
  have h0 : maxRetries.toNat ≠ 0 := by omega
  simp [h0, Nat.add_comm]

/-- Witness for C3 at `retries = 3` and an always-failing transport. -/
theorem claim_C3_witness :
    request 3 (fun _ => -1) = RequestOutcome.envelope ⟨3, 3, -1, 4⟩ :=
  claim_C3_retry_bound 3 (fun _ => -1) (by decide) (fun _ => rfl)

/-- C10: for every `matcher_name`, `get_matcher` with
`matcher_type='branching_model'` returns the `MODEL_BRANCH` matcher with
`id` equal to `matcher_name` unchanged (and `displayId` capitalized); the
`MODEL_CATEGORY` branch is unreachable because the Python guard
`(matcher_name == 'development' or 'production')` is truthy for every
string, so category model names are never given the `MODEL_CATEGORY` type
or the uppercased id. -/
theorem claim_C10_branching_model_always_model_branch (matcherName : String) :
    get_matcher "branching_model" matcherName =
      some ⟨true, pyCapitalize matcherName, matcherName,
            "MODEL_BRANCH", "Branching model branch"⟩ := by
  by_cases h : matcherName = "development" <;>
    simp [get_matcher, h]

/-- Helper: the accumulators of `paginate` are pure prefixes — the loop only
ever appends to the item and cursor accumulators. -/
theorem paginate_accum (server : Nat → PageResp α) (fuel : Nat) :
    ∀ (c : Nat) (acc : List α) (accC : List Nat),
      paginate server fuel c acc accC =
        ⟨acc ++ (paginate server fuel c [] []).items,
         accC ++ (paginate server fuel c [] []).cursors,
         (paginate server fuel c [] []).outcome⟩ := by
  induction fuel with
  | zero => intro c acc accC; simp [paginate]
  | succ f ih =>
    intro c acc accC
    rw [paginate, paginate]
    cases hv : (server c).content.values with
    | none => simp
    | some vs =>
      cases hl : (server c).content.isLastPage with
      | none => simp
      | some b =>
        cases b with
        | true => simp
        | false =>
          simp only [Bool.false_eq_true, if_false, List.nil_append]
          rw [ih _ (acc ++ vs) (accC ++ [c]), ih _ vs [c]]
          simp [List.append_assoc]

/-- Helper: the same prefix property for the fixed-URL loop of
`get_branch_permissions_info`. -/
theorem paginateFixedStart_accum (server : Nat → PageResp α) (fuel : Nat) :
    ∀ (npv : Nat) (acc : List α) (accC : List Nat),
      paginateFixedStart server fuel npv acc accC =
        ⟨acc ++ (paginateFixedStart server fuel npv [] []).items,
         accC ++ (paginateFixedStart server fuel npv [] []).cursors,
         (paginateFixedStart server fuel npv [] []).outcome⟩ := by
  induction fuel with
  | zero => intro npv acc accC; simp [paginateFixedStart]
  | succ f ih =>
    intro npv acc accC
    rw [paginateFixedStart, paginateFixedStart]
    cases hv : (server 0).content.values with
    | none => simp
    | some vs =>
      cases hl : (server 0).content.isLastPage with
      | none => simp
      | some b =>
        cases b with
        | true => simp
        | false =>
          simp only [Bool.false_eq_true, if_false, List.nil_append]
          rw [ih _ (acc ++ vs) (accC ++ [0]), ih _ vs [0]]
          simp [List.append_assoc]

/-- Helper: every cursor requested by a `paginate` run started at `c` is at
least `c`, provided a non-last page always carries a strictly larger
`nextPageStart`. -/
theorem paginate_cursors_lb (server : Nat → PageResp α)
    (hserv : ∀ c, (server c).content.isLastPage = some false →
      ∃ n, (server c).content.nextPageStart = some n ∧ c < n)
    (fuel : Nat) :
    ∀ (c : Nat), ∀ x ∈ (paginate server fuel c [] []).cursors, c ≤ x := by
  induction fuel with
  | zero => intro c x hx; simp [paginate] at hx
  | succ f ih =>
    intro c x hx
    rw [paginate] at hx
    cases hv : (server c).content.values with
    | none => rw [hv] at hx; simp at hx; omega
    | some vs =>
      rw [hv] at hx
      cases hl : (server c).content.isLastPage with
      | none => rw [hl] at hx; simp at hx; omega
      | some b =>
        rw [hl] at hx
        cases b with
        | true => simp at hx; omega
        | false =>
          obtain ⟨n, hn, hcn⟩ := hserv c hl
          simp only [Bool.false_eq_true, if_false, hn] at hx
          rw [paginate_accum] at hx
          simp at hx
          rcases hx with hx | hx
          · omega
          · exact le_of_lt (lt_of_lt_of_le hcn (ih n x hx))

/-- Helper: under the strictly-increasing `nextPageStart` contract, the
cursor sequence of a `paginate` run is strictly increasing. -/
theorem paginate_cursors_pairwise (server : Nat → PageResp α)
    (hserv : ∀ c, (server c).content.isLastPage = some false →
      ∃ n, (server c).content.nextPageStart = some n ∧ c < n)
    (fuel : Nat) :
    ∀ (c : Nat), ((paginate server fuel c [] []).cursors).Pairwise (· < ·) := by
  induction fuel with
  | zero => intro c; simp [paginate]
  | succ f ih =>
    intro c
    rw [paginate]
    cases hv : (server c).content.values with
    | none => simp
    | some vs =>
      cases hl : (server c).content.isLastPage with
      | none => simp
      | some b =>
        cases b with
        | true => simp
        | false =>
          obtain ⟨n, hn, hcn⟩ := hserv c hl
          simp only [Bool.false_eq_true, if_false, hn]
          rw [paginate_accum]
          simp only [List.nil_append, List.singleton_append, List.pairwise_cons]
          constructor
          · intro y hy
            exact lt_of_lt_of_le hcn (paginate_cursors_lb server hserv f n y hy)
          · exact ih n

/-- Helper: the fixed-URL loop of `get_branch_permissions_info` only ever
requests cursor 0. -/
theorem paginateFixedStart_cursors_zero (server : Nat → PageResp α)
    (fuel : Nat) :
    ∀ (npv : Nat) (acc : List α),
      ∀ x ∈ (paginateFixedStart server fuel npv acc []).cursors, x = 0 := by
  induction fuel with
  | zero => intro npv acc x hx; simp [paginateFixedStart] at hx
  | succ f ih =>
    intro npv acc x hx
    rw [paginateFixedStart] at hx
    cases hv : (server 0).content.values with
    | none => rw [hv] at hx; simp at hx; omega
    | some vs =>
      rw [hv] at hx
      cases hl : (server 0).content.isLastPage with
      | none => rw [hl] at hx; simp at hx; omega
      | some b =>
        rw [hl] at hx
        cases b with
        | true => simp at hx; omega
        | false =>
          simp only [Bool.false_eq_true, if_false] at hx
          rw [paginateFixedStart_accum] at hx
          simp at hx
          rcases hx with hx | hx
          · omega
          · exact ih _ [] x hx

/-- C4 (counterexample): against a well-behaved two-page collection, the
first two requests of a single `get_branch_permissions_info` pagination run
are both issued with `start=0` — the lister revisits cursor 0, because the
request URL is formatted once before the loop and never recomputed. -/
theorem claim_C4_counterexample :
    (paginateFixedStart twoPageServer 2 0 [] []).cursors = [0, 0] ∧
      ¬ ((paginateFixedStart twoPageServer 2 0 [] []).cursors).Nodup := by
  constructor
  · rfl
  · decide

/-- C4 (amended): in every pagination run the accumulated item sequence
grows strictly additively (the accumulator is a pure prefix of the result —
items are only appended, never re-fetched), and the URL-reformatting listers
(`get_all_projects_info` and its siblings) never revisit a cursor provided
every non-last page carries a strictly larger `nextPageStart`, as the real
server guarantees; but `get_branch_permissions_info` formats its URL once
before the loop, so every request of its run — however many pages the server
reports — is issued with cursor 0. -/
theorem claim_C4_additive_and_cursors :
    (∀ (server : Nat → PageResp Nat) (fuel c : Nat) (acc : List Nat)
       (accC : List Nat),
       (paginate server fuel c acc accC).items =
         acc ++ (paginate server fuel c [] []).items) ∧
    (∀ (server : Nat → PageResp Nat),
       (∀ c, (server c).content.isLastPage = some false →
         ∃ n, (server c).content.nextPageStart = some n ∧ c < n) →
       ∀ (fuel c : Nat), ((paginate server fuel c [] []).cursors).Nodup) ∧
    (∀ (server : Nat → PageResp Nat) (fuel npv : Nat) (acc : List Nat),
       (paginateFixedStart server fuel npv acc []).items =
         acc ++ (paginateFixedStart server fuel npv [] []).items) ∧
    (∀ (server : Nat → PageResp Nat) (fuel npv : Nat) (acc : List Nat),
       ∀ x ∈ (paginateFixedStart server fuel npv acc []).cursors, x = 0) := by
  refine ⟨?_, ?_, ?_, ?_⟩
  · intro server fuel c acc accC
    rw [paginate_accum server fuel c acc accC]
  · intro server hserv fuel c
    exact List.Pairwise.imp (fun h => ne_of_lt h)
      (paginate_cursors_pairwise server hserv fuel c)
  · intro server fuel npv acc
    rw [paginateFixedStart_accum server fuel npv acc []]
  · exact fun server fuel npv acc =>
      paginateFixedStart_cursors_zero server fuel npv acc

/-- Witness for C4: the strictly-paged server satisfies the cursor contract,
and a three-request run visits pairwise-distinct cursors. -/
theorem claim_C4_witness :
    ((paginate strictlyPagedServer 3 0 [] []).cursors).Nodup :=
  claim_C4_additive_and_cursors.2.1 strictlyPagedServer
    (fun c _ => ⟨c + 1, rfl, Nat.lt_succ_self c⟩) 3 0

/-- C5 (counterexample): a page response carrying `isLastPage=false` with no
`nextPageStart` key is *not* treated as the last page: against
`noNextPageServer`, after the first such response the loop issues four more
requests — all at the same cursor 0 — and is still running, rather than
terminating after that page as the claim states. -/
theorem claim_C5_counterexample :
    (paginate noNextPageServer 5 0 [] []).cursors = [0, 0, 0, 0, 0] ∧
      (paginate noNextPageServer 5 0 [] []).outcome = PagOutcome.fuelOut := by
  constructor
  · rfl
  · rfl

/-- C5 (amended): a page response that omits `isLastPage` is treated as the
last page — the loop returns right after that single request.  But a
response with `isLastPage=false` that omits `nextPageStart` is **not**
treated as the last page: the cursor is left unchanged and the loop
re-requests the same page forever (for every finite request budget the run
is still going), so this malformed/older-server shape does cause an
infinite loop. -/
theorem claim_C5_missing_keys :
    (∀ (server : Nat → PageResp Nat) (fuel c : Nat) (acc : List Nat)
       (accC : List Nat) (vs : List Nat),
       (server c).content.values = some vs →
       (server c).content.isLastPage = none →
       paginate server (fuel + 1) c acc accC =
         ⟨acc ++ vs, accC ++ [c], PagOutcome.ok (server c).status⟩) ∧
    (∀ (fuel c : Nat) (acc : List Nat) (accC : List Nat),
       (paginate noNextPageServer fuel c acc accC).outcome =
         PagOutcome.fuelOut) := by
  constructor
  · intro server fuel c acc accC vs hv hl
    rw [paginate, hv, hl]
  · intro fuel
    induction fuel with
    | zero => intro c acc accC; rfl
    | succ f ih =>
      intro c acc accC
      rw [paginate]
      exact ih c (acc ++ []) (accC ++ [c])

/-- Witness for C5: a single page omitting `isLastPage` ends the run after
that one request. -/
theorem claim_C5_witness :
    paginate lastPageMissingServer 1 0 [] [] =
      ⟨[7], [0], PagOutcome.ok 200⟩ :=
  claim_C5_missing_keys.1 lastPageMissingServer 0 0 [] [] [7] rfl rfl

/-- C8: in `get_all_projects_info` and `get_branches_info`, a page request
whose parsed body lacks the `values` key makes the helper raise an uncaught
Python `KeyError` at the accumulation step (`content['values']`), before any
of the 400/401/404/generic status handlers can run — the status checks sit
after the pagination loop, so they are never reached (here shown for the
first page of the run, with any non-200 status). -/
theorem claim_C8_keyerror_before_status_handlers :
    ∀ (server : Nat → PageResp Nat) (fuel : Nat) (failWhenNotExists : Bool),
      (server 0).content.values = none →
      (server 0).status ≠ 200 →
      get_all_projects_info server (fuel + 1) = ListHelperOutcome.pyKeyError ∧
      get_branches_info server (fuel + 1) failWhenNotExists =
        ListHelperOutcome.pyKeyError := by
  intro server fuel fwne hv _hs
  unfold get_all_projects_info get_branches_info
  rw [paginate, hv]
  exact ⟨rfl, rfl⟩

/-- Witness for C8: a 404 whose body has no `values` key. -/
theorem claim_C8_witness :
    get_all_projects_info errorBodyServer 1 = ListHelperOutcome.pyKeyError ∧
      get_branches_info errorBodyServer 1 true =
        ListHelperOutcome.pyKeyError :=
  claim_C8_keyerror_before_status_handlers errorBodyServer 0 true rfl
    (by decide)

/-- Helper: one restriction step in check mode issues no mutations and
computes the same changed flag as a real run. -/
theorem bpRestrictionStep_check (state : PState)
    (existing : List ExistingRestriction) (matcher : Option BPMatcher)
    (scopeType : String) (r : DesiredRestriction) :
    (bpRestrictionStep true state existing matcher scopeType r).mutations = [] ∧
      (bpRestrictionStep true state existing matcher scopeType r).changed =
        (bpRestrictionStep false state existing matcher scopeType r).changed := by
  unfold bpRestrictionStep
  cases bpFound existing matcher scopeType r <;> cases state <;> simp

/-- Helper: the restriction fold in check mode keeps the mutation list empty
and computes the same changed flag as a real run, for any pair of
accumulators agreeing on `changed` with an empty check-mode mutation list. -/
theorem bpFoldl_check (state : PState) (existing : List ExistingRestriction)
    (matcher : Option BPMatcher) (scopeType : String) :
    ∀ (rs : List DesiredRestriction) (a1 a2 : ModuleResult BPMutation),
      a1.mutations = [] → a1.changed = a2.changed →
      (rs.foldl (bpAccum true state existing matcher scopeType) a1).mutations = [] ∧
        (rs.foldl (bpAccum true state existing matcher scopeType) a1).changed =
          (rs.foldl (bpAccum false state existing matcher scopeType) a2).changed := by
  intro rs
  induction rs with
  | nil => intro a1 a2 h1 h2; exact ⟨h1, h2⟩
  | cons r rs ih =>
    intro a1 a2 h1 h2
    simp only [List.foldl_cons]
    exact ih _ _
      (by simp [bpAccum, h1,
            (bpRestrictionStep_check state existing matcher scopeType r).1])
      (by simp [bpAccum, h2,
            (bpRestrictionStep_check state existing matcher scopeType r).2])

/-- C1: in check mode, `bitbucket_repo`'s and
`bitbucket_branch_permissions`'s reconciliation logic issues zero mutating
requests (the create/delete request path is never invoked), and reports
exactly the `changed` verdict a real run would compute from the same
current state. -/
theorem claim_C1_check_mode_no_mutation_same_verdict :
    (∀ (α : Type) (state : PState) (existing : Option α),
       (bitbucket_repo_main true state existing).mutations = [] ∧
       (bitbucket_repo_main true state existing).changed =
         (bitbucket_repo_main false state existing).changed) ∧
    (∀ (state : PState) (existing : List ExistingRestriction)
       (matcher : Option BPMatcher) (scopeType : String)
       (restrictions : List DesiredRestriction),
       (bitbucket_branch_permissions_main true state existing matcher
          scopeType restrictions).mutations = [] ∧
       (bitbucket_branch_permissions_main true state existing matcher
          scopeType restrictions).changed =
         (bitbucket_branch_permissions_main false state existing matcher
            scopeType restrictions).changed) := by
  constructor
  · intro α state existing
    cases state <;> cases existing <;> simp [bitbucket_repo_main]
  · intro state existing matcher scopeType restrictions
    exact bpFoldl_check state existing matcher scopeType restrictions _ _ rfl rfl

/-- Helper: the delete fold of `bitbucket_pull_request` (real run) reports
`changed` iff some pull matches and issues one delete per matching pull, in
listing order. -/
theorem prDeleteFoldl (fromBranch toBranch : String) :
    ∀ (pulls : List Pull) (a : ModuleResult PullMutation),
      pulls.foldl (prDeleteAccum false fromBranch toBranch) a =
        ⟨a.changed || pulls.any (fun d => d.toRef == toBranch && d.fromRef == fromBranch),
         a.mutations ++
           (pulls.filter (fun d => d.toRef == toBranch && d.fromRef == fromBranch)).map
             (fun d => PullMutation.deletePull d.id d.version)⟩ := by
  intro pulls
  induction pulls with
  | nil => intro a; simp
  | cons d rest ih =>
    intro a
    simp only [List.foldl_cons, prDeleteAccum]
    cases h : (d.toRef == toBranch && d.fromRef == fromBranch) with
    | false =>
      rw [ih]
      simp [h]
    | true =>
      rw [ih]
      simp [h]

/-- C2 (counterexample): `bitbucket_webhook` with `state=absent` and an
existing webhook matched by name issues no delete request at all and reports
`changed=false` — the module simply has no delete branch — contradicting
"send a delete RequestSpec for each match; changed=true". -/
theorem claim_C2_counterexample :
    bitbucket_webhook_main false PState.absent [⟨"develop"⟩] "develop" =
      ⟨false, []⟩ := by
  rfl

/-- C2 (amended): the delete-on-absent behaviour differs per module.
`bitbucket_pull_request` deletes every match (one delete RequestSpec per
matching pull, in order, `changed` true exactly when there is a match);
`bitbucket_branch_permissions` deletes only the *first* match (`found[0]`)
of each desired restriction; and `bitbucket_webhook` never deletes anything
and reports `changed=false` for `state=absent`. -/
theorem claim_C2_delete_on_absent :
    (∀ (pulls : List Pull) (fromBranch toBranch : String),
       pulls ≠ [] →
       bitbucket_pull_request_main false PState.absent pulls fromBranch toBranch =
         ⟨pulls.any (fun d => d.toRef == toBranch && d.fromRef == fromBranch),
          (pulls.filter (fun d => d.toRef == toBranch && d.fromRef == fromBranch)).map
            (fun d => PullMutation.deletePull d.id d.version)⟩) ∧
    (∀ (existing : List ExistingRestriction) (matcher : Option BPMatcher)
       (scopeType : String) (r : DesiredRestriction) (f : ExistingRestriction)
       (rest : List ExistingRestriction),
       bpFound existing matcher scopeType r = f :: rest →
       bpRestrictionStep false PState.absent existing matcher scopeType r =
         ⟨true, [BPMutation.deleteRestriction f.id]⟩) ∧
    (∀ (checkMode : Bool) (existingWebhooks : List Webhook) (name : String),
       bitbucket_webhook_main checkMode PState.absent existingWebhooks name =
         ⟨false, []⟩) := by
  refine ⟨?_, ?_, ?_⟩
  · intro pulls fromBranch toBranch hne
    unfold bitbucket_pull_request_main
    rw [if_neg (by simp), if_pos ⟨by simp [hne], rfl⟩,
      prDeleteFoldl fromBranch toBranch pulls]
    simp
  · intro existing matcher scopeType r f rest h
    unfold bpRestrictionStep
    rw [h]
    simp
  · intro checkMode existingWebhooks name
    unfold bitbucket_webhook_main
    rw [if_neg (by simp)]

/-- Witness for C2: two of three pulls match `dev → master`; both are
deleted, in order, and `changed=true`. -/
theorem claim_C2_witness :
    bitbucket_pull_request_main false PState.absent
        [⟨"dev", "master", 1, 9⟩, ⟨"x", "y", 2, 8⟩, ⟨"dev", "master", 3, 7⟩]
        "dev" "master" =
      ⟨true, [PullMutation.deletePull 1 9, PullMutation.deletePull 3 7]⟩ :=
  claim_C2_delete_on_absent.1
    [⟨"dev", "master", 1, 9⟩, ⟨"x", "y", 2, 8⟩, ⟨"dev", "master", 3, 7⟩]
    "dev" "master" (by decide)

/-- C6 (counterexample): the branches listing endpoint sends a 400 response
to the same *generic* failure branch as a 500 (it has no 400 branch at all),
and the projects listing endpoint sends a 404 to its generic branch (it has
no 404 branch): the 400/404/other three-way distinction does not hold across
all list-type endpoints. -/
theorem claim_C6_counterexample :
    get_branches_info (onePageServer 400 []) 1 true =
        ListHelperOutcome.failGeneric ∧
      get_all_projects_info (onePageServer 404 []) 1 =
        ListHelperOutcome.failGeneric ∧
      (ListHelperOutcome.failGeneric : ListHelperOutcome Nat) ≠
        ListHelperOutcome.fail400 ∧
      (ListHelperOutcome.failGeneric : ListHelperOutcome Nat) ≠
        ListHelperOutcome.fail404 := by
  refine ⟨rfl, rfl, by decide, by decide⟩

/-- C6 (amended): the three-way 400 (scope not listable) / 404 (parent
missing) / other-non-200 (generic) distinction survives only in the
`bitbucket_fileglob` lookup, whose loop raises three distinct
`AnsibleError`s (re-wrapped with their distinct messages by its `except`
handler).  In `bitbucket_find.py` the same three `raise AnsibleError(...)`
statements all crash with the identical `NameError` — `AnsibleError` is
never imported there — so a 400, a 404 and any other non-200 status produce
one and the same failure, with no scope-not-listable / parent-missing /
generic distinction.  Among the module-utils listing helpers,
`get_branches_info` routes a 400 to its generic branch (while
distinguishing 401 and 404) and `get_all_projects_info` routes a 404 to its
generic branch (while distinguishing 400). -/
theorem claim_C6_three_way_distinction :
    (∀ (s : Int) (vs : List Nat), s ≠ 200 →
       get_list_of_files (onePageServer s vs) 1 0 [] =
         ListHelperOutcome.pyNameError) ∧
    (∀ (vs : List Nat), fileglob_list_files (onePageServer 400 vs) 1 0 [] =
       ListHelperOutcome.fail400) ∧
    (∀ (vs : List Nat), fileglob_list_files (onePageServer 404 vs) 1 0 [] =
       ListHelperOutcome.fail404) ∧
    (∀ (s : Int) (vs : List Nat), s ≠ 200 → s ≠ 400 → s ≠ 404 →
       fileglob_list_files (onePageServer s vs) 1 0 [] =
         ListHelperOutcome.failGeneric) ∧
    (∀ (vs : List Nat) (failWhenNotExists : Bool),
       get_branches_info (onePageServer 400 vs) 1 failWhenNotExists =
         ListHelperOutcome.failGeneric) ∧
    (∀ (vs : List Nat),
       get_all_projects_info (onePageServer 404 vs) 1 =
         ListHelperOutcome.failGeneric) ∧
    (∀ (vs : List Nat) (failWhenNotExists : Bool),
       get_branches_info (onePageServer 401 vs) 1 failWhenNotExists =
         ListHelperOutcome.fail401) := by
  refine ⟨?_, fun vs => rfl, fun vs => rfl, ?_, fun vs fwne => rfl,
    fun vs => rfl, fun vs fwne => rfl⟩
  · intro s vs h200
    unfold get_list_of_files onePageServer
    simp [h200]
  · intro s vs h200 h400 h404
    unfold fileglob_list_files onePageServer
    simp [h200, h400, h404]

/-- Witness for C6: in the find module a 400 crashes with the same
`NameError` as any other non-200, while the fileglob lookup sends a 500 to
its distinct generic branch. -/
theorem claim_C6_witness :
    get_list_of_files (onePageServer 400 []) 1 0 [] =
        ListHelperOutcome.pyNameError ∧
      fileglob_list_files (onePageServer 500 []) 1 0 [] =
        ListHelperOutcome.failGeneric :=
  ⟨claim_C6_three_way_distinction.1 400 [] (by decide),
   claim_C6_three_way_distinction.2.2.2.1 500 [] (by decide) (by decide)
     (by decide)⟩

/-- Helper: if no existing branch bears the requested name, no existing
branch bears the name together with any extra property either. -/
theorem branch_any_and_eq_false {l : List BranchItem} {b : String}
    (h : l.any (fun d => d.displayId == b) = false) :
    l.any (fun d => d.displayId == b && !d.isDefault) = false := by
  simp only [List.any_eq_false] at h ⊢
  intro d hd
  have h' := h d hd
  cases hx : d.displayId == b with
  | false => simp [hx]
  | true => exact absurd hx h'

/-- Helper: the set-default map preserves `displayId`s, so the name search
is unchanged by it. -/
theorem branch_any_name_map (l : List BranchItem) (b : String) :
    (l.map (fun d => if d.displayId == b then (⟨d.displayId, true⟩ : BranchItem)
                     else ⟨d.displayId, false⟩)).any
        (fun d => d.displayId == b) =
      l.any (fun d => d.displayId == b) := by
  rw [List.any_map]
  congr 1
  funext d
  by_cases h : (d.displayId == b) = true <;> simp [Function.comp, h]

/-- Helper: after the set-default map, no branch of the requested name is
non-default. -/
theorem branch_any_nondefault_map (l : List BranchItem) (b : String) :
    (l.map (fun d => if d.displayId == b then (⟨d.displayId, true⟩ : BranchItem)
                     else ⟨d.displayId, false⟩)).any
      (fun d => d.displayId == b && !d.isDefault) = false := by
  rw [List.any_map, List.any_eq_false]
  intro d _
  by_cases h : (d.displayId == b) = true <;> simp [Function.comp, h]

/-- Helper: `bitbucket_branch`'s reconciliation is a no-op when a branch of
the requested name exists and the promote condition is off. -/
theorem branch_main_noop (E : List BranchItem) (b : String) (isDef : Bool)
    (hname : E.any (fun d => d.displayId == b) = true)
    (hupd : ((E.any (fun d => d.displayId == b && !d.isDefault)) && isDef) = false) :
    bitbucket_branch_main false E b isDef = ⟨false, []⟩ := by
  unfold bitbucket_branch_main
  rw [hname, hupd]
  simp

/-- C7 (counterexample): with desired state `present` and a repository that
already exists, the *first* run of `bitbucket_repo` reports
`changed=false`, contradicting "yields changed=true on the first run" for
every desired state. -/
theorem claim_C7_counterexample :
    (bitbucket_repo_main false PState.present (some (0 : Nat))).changed =
      false := by
  rfl

/-- C7 (amended): after the server applies the first run's mutations, a
second run of the same reconciliation always reports `changed=false` and
issues no mutating requests (shown for `bitbucket_repo` and
`bitbucket_branch`); and the *first* run of `bitbucket_repo` reports
`changed=true` exactly when the current state does not already satisfy the
desired state — not unconditionally. -/
theorem claim_C7_rerun_is_noop :
    (∀ (α : Type) (newRepo : α) (state : PState) (existing : Option α),
       bitbucket_repo_main false state (applyRepoServer newRepo state existing) =
         ⟨false, []⟩ ∧
       (bitbucket_repo_main false state existing).changed =
         !(repoDesireSatisfied state existing)) ∧
    (∀ (existingBranches : List BranchItem) (branch : String)
       (isDefault : Bool),
       bitbucket_branch_main false
           (applyBranchServer existingBranches branch isDefault) branch
           isDefault =
         ⟨false, []⟩) := by
  constructor
  · intro α newRepo state existing
    cases state <;> cases existing <;>
      simp [bitbucket_repo_main, applyRepoServer, repoDesireSatisfied]
  · intro e b isDef
    by_cases hc : (e.any (fun d => d.displayId == b)) = true
    · by_cases hu :
        ((e.any (fun d => d.displayId == b && !d.isDefault)) && isDef) = true
      · have hmain : bitbucket_branch_main false e b isDef =
            ⟨true, [BranchMutation.setDefaultBranch]⟩ := by
          unfold bitbucket_branch_main
          rw [hc, hu]
          simp
        have happly : applyBranchServer e b isDef =
            e.map (fun d => if d.displayId == b
                   then (⟨d.displayId, true⟩ : BranchItem)
                   else ⟨d.displayId, false⟩) := by
          unfold applyBranchServer
          rw [hmain]
          rfl
        rw [happly]
        refine branch_main_noop _ b isDef ?_ ?_
        · rw [branch_any_name_map]
          exact hc
        · rw [branch_any_nondefault_map]
          exact Bool.false_and isDef
      · simp only [Bool.not_eq_true] at hu
        have hmain : bitbucket_branch_main false e b isDef = ⟨false, []⟩ := by
          unfold bitbucket_branch_main
          rw [hc, hu]
          simp
        have happly : applyBranchServer e b isDef = e := by
          unfold applyBranchServer
          rw [hmain]
          rfl
        rw [happly]
        exact branch_main_noop e b isDef hc hu
    · simp only [Bool.not_eq_true] at hc
      have hnd := branch_any_and_eq_false hc
      cases isDef with
      | false =>
        have hmain : bitbucket_branch_main false e b false =
            ⟨true, [BranchMutation.createBranch]⟩ := by
          unfold bitbucket_branch_main
          rw [hc, hnd]
          simp
        have happly : applyBranchServer e b false = e ++ [⟨b, false⟩] := by
          unfold applyBranchServer
          rw [hmain]
          rfl
        rw [happly]
        refine branch_main_noop _ b false ?_ ?_
        · rw [List.any_append, hc, Bool.false_or, List.any_cons, List.any_nil,
            Bool.or_false]
          exact beq_self_eq_true b
        · exact Bool.and_false _
      | true =>
        have hmain : bitbucket_branch_main false e b true =
            ⟨true, [BranchMutation.createBranch,
                    BranchMutation.setDefaultBranch]⟩ := by
          unfold bitbucket_branch_main
          rw [hc, hnd]
          simp
        have happly : applyBranchServer e b true =
            (e ++ [(⟨b, false⟩ : BranchItem)]).map
              (fun d => if d.displayId == b
               then (⟨d.displayId, true⟩ : BranchItem)
               else ⟨d.displayId, false⟩) := by
          unfold applyBranchServer
          rw [hmain]
          rfl
        rw [happly]
        refine branch_main_noop _ b true ?_ ?_
        · rw [branch_any_name_map, List.any_append, hc, Bool.false_or,
            List.any_cons, List.any_nil, Bool.or_false]
          exact beq_self_eq_true b
        · rw [branch_any_nondefault_map]
          exact Bool.false_and true

end EspBitbucket
